import Mathlib

/-!
Shallow embedding of the CareTraceAI core logic (src/agents/safety_agent.py,
src/agents/pattern_agent.py, src/agents/memory_agent.py, src/utils/helpers.py,
src/config.py) together with theorems checking the natural-language
specification against it.  Python strings are modelled as Lean Strings;
Python str.lower is modelled by mapping Char.toLower over the characters,
and list/dict data is modelled by Lean lists and structures.
-/

namespace CareTrace

/-- Model of Python str.lower (ASCII case folding over the characters). -/
def pyToLower (s : String) : String :=
  String.mk (s.data.map Char.toLower)

/-- Model of Python str.strip() with no argument: drop leading and trailing
whitespace characters. -/
def pyStripWhitespace (s : String) : String :=
  String.mk (((s.data.dropWhile Char.isWhitespace).reverse.dropWhile
    Char.isWhitespace).reverse)

/-- helpers.clean_drug_name: drug_name.strip().lower(). -/
def cleanDrugName (drug_name : String) : String :=
  pyToLower (pyStripWhitespace drug_name)

/-- Drug-drug interaction record (payload of the drug_interactions
collection).  The severity field is optional, matching the Python access
interaction.get("severity", "mild"). -/
structure Interaction where
  drug_a : String
  drug_b : String
  severity : Option String
deriving DecidableEq

/-- SafetyAgent._find_interactions: keep exactly the stored interactions whose
lower-cased pair joins the new drug (lower-cased) with one of the current
drugs (lower-cased), in either storage order. -/
def findInteractions (new_drug : String) (current_drugs : List String)
    (all_interactions : List Interaction) : List Interaction :=
  all_interactions.filter (fun i =>
    (pyToLower i.drug_a == pyToLower new_drug &&
      (current_drugs.map pyToLower).contains (pyToLower i.drug_b)) ||
    (pyToLower i.drug_b == pyToLower new_drug &&
      (current_drugs.map pyToLower).contains (pyToLower i.drug_a)))

/-- SafetyAgent.get_interaction_details: the first stored interaction whose
lower-cased pair matches the queried pair in either order, if any. -/
def getInteractionDetails (drug_a drug_b : String)
    (all_interactions : List Interaction) : Option Interaction :=
  all_interactions.find? (fun i =>
    (pyToLower i.drug_a == pyToLower drug_a &&
      pyToLower i.drug_b == pyToLower drug_b) ||
    (pyToLower i.drug_a == pyToLower drug_b &&
      pyToLower i.drug_b == pyToLower drug_a))

/-- C1: the safety check flags a stored interaction if and only if its
unordered pair of drug names equals, case-insensitively, the unordered pair
of the candidate drug and some current drug, regardless of which side is
stored as drug_a versus drug_b; and get_interaction_details is symmetric in
its two arguments. -/
theorem find_interactions_matches_unordered_pairs :
    (∀ (new_drug : String) (current_drugs : List String)
        (all_interactions : List Interaction) (i : Interaction),
      i ∈ findInteractions new_drug current_drugs all_interactions ↔
        i ∈ all_interactions ∧ ∃ d ∈ current_drugs,
          ({pyToLower i.drug_a, pyToLower i.drug_b} : Set String) =
            {pyToLower new_drug, pyToLower d}) ∧
    (∀ (drug_a drug_b : String) (all_interactions : List Interaction),
      getInteractionDetails drug_a drug_b all_interactions =
        getInteractionDetails drug_b drug_a all_interactions) := by
  constructor
  · intro X cur ints i
    simp only [findInteractions, List.mem_filter, List.contains, Bool.or_eq_true,
      Bool.and_eq_true, beq_iff_eq, List.elem_iff,
      List.mem_map, Set.pair_eq_pair_iff]
    constructor
    · rintro ⟨hi, ⟨ha, d, hd, hdb⟩ | ⟨hb, d, hd, hda⟩⟩
      · exact ⟨hi, d, hd, Or.inl ⟨ha, hdb.symm⟩⟩
      · exact ⟨hi, d, hd, Or.inr ⟨hda.symm, hb⟩⟩
    · rintro ⟨hi, d, hd, ⟨ha, hb⟩ | ⟨ha, hb⟩⟩
      · exact ⟨hi, Or.inl ⟨ha, d, hd, hb.symm⟩⟩
      · exact ⟨hi, Or.inr ⟨hb, d, hd, ha.symm⟩⟩
  · intro a b ints
    unfold getInteractionDetails
    have h : (fun i : Interaction =>
        (pyToLower i.drug_a == pyToLower a && pyToLower i.drug_b == pyToLower b) ||
        (pyToLower i.drug_a == pyToLower b && pyToLower i.drug_b == pyToLower a)) =
        (fun i : Interaction =>
        (pyToLower i.drug_a == pyToLower b && pyToLower i.drug_b == pyToLower a) ||
        (pyToLower i.drug_a == pyToLower a && pyToLower i.drug_b == pyToLower b)) := by
      funext i
      exact Bool.or_comm _ _
    rw [h]

/-- Model of Python str.upper (ASCII case folding over the characters). -/
def pyToUpper (s : String) : String :=
  String.mk (s.data.map Char.toUpper)

/-- Severity ranking table of SafetyAgent._get_max_severity. -/
def severityOrder : List (String × Nat) :=
  [("severe", 3), ("moderate", 2), ("mild", 1)]

/-- Model of severity_order.get(severity, 1): rank of a severity string,
defaulting to 1 for unrecognized values. -/
def severityValue (severity : String) : Nat :=
  (severityOrder.lookup severity).getD 1

/-- One step of the fold in SafetyAgent._get_max_severity: keep the severity
with the largest rank seen so far (strict improvement only). -/
def maxSevStep (acc : String × Nat) (i : Interaction) : String × Nat :=
  let severity := pyToLower (i.severity.getD "mild")
  let value := severityValue severity
  if acc.2 < value then (severity, value) else acc

/-- SafetyAgent._get_max_severity, folding from ("mild", 1). -/
def getMaxSeverity (interactions : List Interaction) : String :=
  (interactions.foldl maxSevStep ("mild", 1)).1

/-- Canonical lower-case name of a severity rank; rank 1 is "mild". -/
def rankName (n : Nat) : String :=
  if n = 3 then "severe" else if n = 2 then "moderate" else "mild"

/-- One step of the reference maximum-rank fold. -/
def maxRankStep (m : Nat) (i : Interaction) : Nat :=
  max m (severityValue (pyToLower (i.severity.getD "mild")))

/-- Maximum severity rank over a list of interactions, a missing severity
read as "mild" and an unrecognized severity string ranked 1. -/
def maxSeverityRank (interactions : List Interaction) : Nat :=
  interactions.foldl maxRankStep 1

theorem severityValue_default (s : String) (h1 : s ≠ "severe")
    (h2 : s ≠ "moderate") : severityValue s = 1 := by
  have e1 : (s == ("severe" : String)) = false := beq_eq_false_iff_ne.mpr h1
  have e2 : (s == ("moderate" : String)) = false := beq_eq_false_iff_ne.mpr h2
  by_cases h3 : s = "mild"
  · subst h3; decide
  · have e3 : (s == ("mild" : String)) = false := beq_eq_false_iff_ne.mpr h3
    simp [severityValue, severityOrder, List.lookup, e1, e2, e3]

theorem severityValue_le_three (s : String) : severityValue s ≤ 3 := by
  by_cases h1 : s = "severe"
  · subst h1; decide
  · by_cases h2 : s = "moderate"
    · subst h2; decide
    · rw [severityValue_default s h1 h2]
      omega

theorem one_le_severityValue (s : String) : 1 ≤ severityValue s := by
  by_cases h1 : s = "severe"
  · subst h1; decide
  · by_cases h2 : s = "moderate"
    · subst h2; decide
    · rw [severityValue_default s h1 h2]

theorem eq_rankName_of_two_le (s : String) (h : 2 ≤ severityValue s) :
    s = rankName (severityValue s) := by
  by_cases h1 : s = "severe"
  · subst h1; decide
  · by_cases h2 : s = "moderate"
    · subst h2; decide
    · exfalso
      rw [severityValue_default s h1 h2] at h
      omega

theorem getMaxSeverity_foldl (l : List Interaction) :
    ∀ v : Nat, 1 ≤ v → v ≤ 3 →
      l.foldl maxSevStep (rankName v, v) =
        (rankName (l.foldl maxRankStep v), l.foldl maxRankStep v) := by
  induction l with
  | nil => intro v _ _; rfl
  | cons i t ih =>
    intro v h1 h3
    simp only [List.foldl_cons]
    by_cases hlt : v < severityValue (pyToLower (i.severity.getD "mild"))
    · have hstep : maxSevStep (rankName v, v) i =
          (rankName (severityValue (pyToLower (i.severity.getD "mild"))),
           severityValue (pyToLower (i.severity.getD "mild"))) := by
        simp only [maxSevStep, if_pos hlt]
        rw [← eq_rankName_of_two_le _ (by omega)]
      have hmax : maxRankStep v i =
          severityValue (pyToLower (i.severity.getD "mild")) := by
        simp only [maxRankStep]
        omega
      rw [hstep, hmax]
      exact ih _ (one_le_severityValue _) (severityValue_le_three _)
    · have hstep : maxSevStep (rankName v, v) i = (rankName v, v) := by
        simp only [maxSevStep, if_neg hlt]
      have hmax : maxRankStep v i = v := by
        simp only [maxRankStep]
        omega
      rw [hstep, hmax]
      exact ih v h1 h3

/-- C2: for a non-empty interaction list, the computed max_severity is the
name of the maximum severity rank, ranks being severe 3 > moderate 2 >
mild 1; a missing severity is read as "mild" and an unrecognized severity
string is ranked 1 in the comparison (see severityValue and maxRankStep)
rather than raising an error, the fold being total. -/
theorem get_max_severity_is_rank_maximum (interactions : List Interaction)
    (h : interactions ≠ []) :
    getMaxSeverity interactions = rankName (maxSeverityRank interactions) := by
  have e : (("mild" : String), (1 : Nat)) = (rankName 1, 1) := rfl
  unfold getMaxSeverity maxSeverityRank
  rw [e, getMaxSeverity_foldl interactions 1 (by omega) (by omega)]

/-- Concrete interaction list exercising an upper-case severity, a missing
severity and an unrecognized severity string. -/
def sevW : List Interaction :=
  [⟨"Warfarin", "Aspirin", some "SEVERE"⟩, ⟨"Ibuprofen", "Naproxen", none⟩,
   ⟨"DrugA", "DrugB", some "critical"⟩]

theorem get_max_severity_is_rank_maximum_witness :
    sevW ≠ [] ∧ getMaxSeverity sevW = rankName (maxSeverityRank sevW) ∧
      getMaxSeverity sevW = "severe" :=
  ⟨by decide, get_max_severity_is_rank_maximum sevW (by decide), by decide⟩

/-- Verdict record returned by SafetyAgent.check_new_medication.  The Python
dict omits max_severity on the safe paths; that is modelled as none. -/
structure Verdict where
  safe : Bool
  new_drug : String
  current_drugs : List String
  interactions : List Interaction
  max_severity : Option String
  message : String
deriving DecidableEq

/-- SafetyAgent.check_new_medication, taking the fetched current drugs and
the stored interaction list as arguments. -/
def checkNewMedication (current_drugs : List String) (new_drug : String)
    (all_interactions : List Interaction) : Verdict :=
  if current_drugs.isEmpty then
    { safe := true, new_drug := new_drug, current_drugs := [],
      interactions := [], max_severity := none,
      message := "No current medications on record." }
  else if (findInteractions new_drug current_drugs all_interactions).isEmpty then
    { safe := true, new_drug := new_drug, current_drugs := current_drugs,
      interactions := [], max_severity := none,
      message := "No known interactions found between " ++ new_drug ++
        " and current medications." }
  else
    { safe := false, new_drug := new_drug, current_drugs := current_drugs,
      interactions := findInteractions new_drug current_drugs all_interactions,
      max_severity :=
        some (getMaxSeverity (findInteractions new_drug current_drugs all_interactions)),
      message := "⚠️ Found " ++
        toString (findInteractions new_drug current_drugs all_interactions).length ++
        " potential interaction(s). Maximum severity: " ++
        pyToUpper (getMaxSeverity (findInteractions new_drug current_drugs all_interactions)) }

/-- C3: with no current medications the verdict is safe with the distinct
message "No current medications on record."; with current medications but no
applying interaction it is safe with the "no known interactions" message;
the two messages are never equal, and both paths are total. -/
theorem check_distinguishes_no_data_from_no_interactions :
    (∀ (new_drug : String) (all_interactions : List Interaction),
      checkNewMedication [] new_drug all_interactions =
        { safe := true, new_drug := new_drug, current_drugs := [],
          interactions := [], max_severity := none,
          message := "No current medications on record." }) ∧
    (∀ (current_drugs : List String) (new_drug : String)
        (all_interactions : List Interaction),
      current_drugs ≠ [] →
      findInteractions new_drug current_drugs all_interactions = [] →
      checkNewMedication current_drugs new_drug all_interactions =
        { safe := true, new_drug := new_drug, current_drugs := current_drugs,
          interactions := [], max_severity := none,
          message := "No known interactions found between " ++ new_drug ++
            " and current medications." }) ∧
    (∀ new_drug : String,
      "No current medications on record." ≠
        ("No known interactions found between " ++ new_drug ++
          " and current medications.")) := by
  refine ⟨?_, ?_, ?_⟩
  · intro X ints
    rfl
  · intro cur X ints hcur hfind
    unfold checkNewMedication
    rw [if_neg (by simp [List.isEmpty_iff, hcur]), if_pos (by rw [hfind]; rfl)]
  · intro X h
    have hlen := congrArg String.length h
    rw [String.length_append, String.length_append] at hlen
    have e1 : ("No current medications on record." : String).length = 33 := by decide
    have e2 : ("No known interactions found between " : String).length = 36 := by decide
    have e3 : (" and current medications." : String).length = 25 := by decide
    omega

theorem check_distinguishes_witness :
    checkNewMedication [] "Aspirin" [] =
      { safe := true, new_drug := "Aspirin", current_drugs := [],
        interactions := [], max_severity := none,
        message := "No current medications on record." } ∧
    (checkNewMedication ["Tylenol"] "Aspirin" [] =
      { safe := true, new_drug := "Aspirin", current_drugs := ["Tylenol"],
        interactions := [], max_severity := none,
        message := "No known interactions found between " ++ "Aspirin" ++
          " and current medications." }) ∧
    "No current medications on record." ≠
      ("No known interactions found between " ++ "Aspirin" ++
        " and current medications.") :=
  ⟨check_distinguishes_no_data_from_no_interactions.1 "Aspirin" [],
   check_distinguishes_no_data_from_no_interactions.2.1 ["Tylenol"] "Aspirin" []
     (by decide) (by decide),
   check_distinguishes_no_data_from_no_interactions.2.2 "Aspirin"⟩

/-- Interaction between Aspirin and Warfarin used in concrete counterexamples. -/
def aspWarf : Interaction := ⟨"Aspirin", "Warfarin", some "severe"⟩

/-- C4 counterexample: " aspirin " and "Aspirin" normalize to the same name
under clean_drug_name (trim plus lower-case), yet the safety checker, which
only lower-cases, treats them differently: the interaction with Warfarin is
found for "Aspirin" but not for " aspirin ". -/
theorem find_interactions_does_not_trim_cx :
    cleanDrugName " aspirin " = cleanDrugName "Aspirin" ∧
    findInteractions "Aspirin" ["Warfarin"] [aspWarf] = [aspWarf] ∧
    findInteractions " aspirin " ["Warfarin"] [aspWarf] = [] ∧
    getInteractionDetails "Aspirin" "Warfarin" [aspWarf] = some aspWarf ∧
    getInteractionDetails " aspirin " "Warfarin" [aspWarf] = none := by
  decide

/-- C4 amended: the safety checker's drug-name comparison normalizes by
lower-casing only (it does not trim surrounding whitespace): replacing the
candidate drug, the current drugs, or the lookup arguments by variants with
the same lower-casing leaves both results unchanged. -/
theorem find_interactions_lowercase_normalization
    (new1 new2 : String) (cur1 cur2 : List String)
    (a1 a2 b1 b2 : String) (ints : List Interaction)
    (hn : pyToLower new1 = pyToLower new2)
    (hc : cur1.map pyToLower = cur2.map pyToLower)
    (ha : pyToLower a1 = pyToLower a2) (hb : pyToLower b1 = pyToLower b2) :
    findInteractions new1 cur1 ints = findInteractions new2 cur2 ints ∧
    getInteractionDetails a1 b1 ints = getInteractionDetails a2 b2 ints := by
  constructor
  · unfold findInteractions
    rw [hn, hc]
  · unfold getInteractionDetails
    rw [ha, hb]

theorem find_interactions_lowercase_normalization_witness :
    findInteractions "ASPIRIN" ["WarFarin"] [aspWarf] =
      findInteractions "aspirin" ["warfarin"] [aspWarf] ∧
    getInteractionDetails "Aspirin" "Warfarin" [aspWarf] =
      getInteractionDetails "ASPIRIN" "warfarin" [aspWarf] :=
  find_interactions_lowercase_normalization "ASPIRIN" "aspirin" ["WarFarin"]
    ["warfarin"] "Aspirin" "ASPIRIN" "Warfarin" "warfarin" [aspWarf]
    (by decide) (by decide) (by decide) (by decide)

/-- Tokenizer loop behind Python str.split() with no separator: split on
whitespace runs, discarding empty pieces.  The accumulator holds the current
word reversed. -/
def wordsAux : List Char → List Char → List (List Char)
  | [], acc => if acc = [] then [] else [acc.reverse]
  | c :: cs, acc =>
    if c.isWhitespace then
      if acc = [] then wordsAux cs [] else acc.reverse :: wordsAux cs []
    else wordsAux cs (c :: acc)

/-- Model of Python str.split() with no argument. -/
def pySplit (s : String) : List String :=
  (wordsAux s.data []).map String.mk

/-- Characters removed by word.strip(".,!?;:") in
PatternAgent._extract_keywords. -/
def stripChars : List Char := ['.', ',', '!', '?', ';', ':']

/-- Model of Python str.strip(".,!?;:"): drop those characters from both
ends of the word. -/
def pyStripPunct (s : String) : String :=
  String.mk (((s.data.dropWhile (stripChars.contains ·)).reverse.dropWhile
    (stripChars.contains ·)).reverse)

/-- Stop-word set of PatternAgent._extract_keywords. -/
def stopWords : List String :=
  ["i", "am", "have", "been", "having", "feel", "feeling",
   "the", "a", "an", "and", "or", "but", "in", "on", "at",
   "to", "for", "of", "with", "my", "me", "is", "was", "are"]

/-- PatternAgent._extract_keywords: lower-case, split on whitespace, keep the
words longer than 3 characters that are not stop words, then strip
surrounding punctuation from the kept words (the length and stop-word tests
run before stripping). -/
def extractKeywords (text : String) : List String :=
  ((pySplit (pyToLower text)).filter
    (fun w => decide (3 < w.length) && !(stopWords.contains w))).map pyStripPunct

/-- Patient event as consumed by the pattern agent: free text, ISO timestamp
string, and prescribed drugs (empty unless the event is a prescription). -/
structure PEvent where
  text : String
  timestamp : String
  drugs : List String
deriving DecidableEq

/-- Per-event record built by detect_recurring_symptoms: the event's
extracted keywords, timestamp and full text. -/
structure Occurrence where
  keywords : List String
  timestamp : String
  full_text : String
deriving DecidableEq

/-- Entry of the recurring-pattern report. -/
structure RecurringPattern where
  symptom_keyword : String
  occurrence_count : Nat
  dates : List String
  reports : List String
deriving DecidableEq

/-- Result of detect_recurring_symptoms.  The Python dict omits the
recurring_symptoms key on the negative paths; that is modelled as []. -/
structure PatternResult where
  has_patterns : Bool
  recurring_symptoms : List RecurringPattern
  message : String
deriving DecidableEq

/-- config.PATTERN_REPEAT_THRESHOLD. -/
def PATTERN_REPEAT_THRESHOLD : Nat := 2

/-- The keyword_occurrences list of detect_recurring_symptoms. -/
def keywordOccurrences (symptoms : List PEvent) : List Occurrence :=
  symptoms.map (fun s =>
    { keywords := extractKeywords s.text, timestamp := s.timestamp,
      full_text := s.text })

/-- The all_keywords list of detect_recurring_symptoms: every extracted
keyword across the symptom events, duplicates kept. -/
def allKeywords (symptoms : List PEvent) : List String :=
  ((keywordOccurrences symptoms).map Occurrence.keywords).flatten

/-- Keys of Counter(all_keywords) in first-occurrence order. -/
def dedupKeys : List String → List String
  | [] => []
  | k :: ks => k :: ((dedupKeys ks).filter (fun x => !(x == k)))

/-- Keywords whose total occurrence count reaches the repeat threshold, in
Counter key order: the recurring dict of detect_recurring_symptoms. -/
def recurringKeywords (symptoms : List PEvent) : List String :=
  (dedupKeys (allKeywords symptoms)).filter
    (fun k => decide (PATTERN_REPEAT_THRESHOLD ≤ (allKeywords symptoms).count k))

/-- Pattern report for one recurring keyword: total occurrence count, and
the timestamps and full texts of the events whose keywords contain it. -/
def buildPattern (symptoms : List PEvent) (k : String) : RecurringPattern :=
  { symptom_keyword := k,
    occurrence_count := (allKeywords symptoms).count k,
    dates := ((keywordOccurrences symptoms).filter
      (fun o => o.keywords.contains k)).map Occurrence.timestamp,
    reports := ((keywordOccurrences symptoms).filter
      (fun o => o.keywords.contains k)).map Occurrence.full_text }

/-- PatternAgent.detect_recurring_symptoms over the fetched symptom events. -/
def detectRecurringSymptoms (symptoms : List PEvent) : PatternResult :=
  if symptoms.length < 2 then
    { has_patterns := false, recurring_symptoms := [],
      message := "Insufficient data to detect patterns (need at least 2 symptom reports)" }
  else if recurringKeywords symptoms = [] then
    { has_patterns := false, recurring_symptoms := [],
      message := "No recurring symptom patterns detected" }
  else
    { has_patterns := true,
      recurring_symptoms := (recurringKeywords symptoms).map (buildPattern symptoms),
      message := "⚠️ Detected " ++
        toString ((recurringKeywords symptoms).map (buildPattern symptoms)).length ++
        " recurring symptom pattern(s)" }

/-- C7: every pattern returned by detect_recurring_symptoms is built for a
keyword whose total occurrence count reaches PATTERN_REPEAT_THRESHOLD
(hence no keyword below the threshold appears in any returned pattern),
reports that count, and carries the timestamp and full text of exactly the
source events in which its keyword appeared. -/
theorem detect_recurring_threshold_and_provenance
    (symptoms : List PEvent) (p : RecurringPattern)
    (hp : p ∈ (detectRecurringSymptoms symptoms).recurring_symptoms) :
    PATTERN_REPEAT_THRESHOLD ≤ (allKeywords symptoms).count p.symptom_keyword ∧
    p.occurrence_count = (allKeywords symptoms).count p.symptom_keyword ∧
    p.dates = ((keywordOccurrences symptoms).filter
      (fun o => o.keywords.contains p.symptom_keyword)).map Occurrence.timestamp ∧
    p.reports = ((keywordOccurrences symptoms).filter
      (fun o => o.keywords.contains p.symptom_keyword)).map Occurrence.full_text := by
  unfold detectRecurringSymptoms at hp
  by_cases h2 : symptoms.length < 2
  · rw [if_pos h2] at hp
    simp at hp
  · rw [if_neg h2] at hp
    by_cases h3 : recurringKeywords symptoms = []
    · rw [if_pos h3] at hp
      simp at hp
    · rw [if_neg h3] at hp
      simp only [List.mem_map] at hp
      obtain ⟨k, hk, rfl⟩ := hp
      unfold recurringKeywords at hk
      rw [List.mem_filter] at hk
      exact ⟨of_decide_eq_true hk.2, rfl, rfl, rfl⟩

/-- Symptom history with the keyword "headache" in two distinct reports. -/
def repSyms : List PEvent :=
  [⟨"headache today", "2024-01-01", []⟩, ⟨"headache again", "2024-01-03", []⟩]

theorem detect_recurring_threshold_and_provenance_witness :
    buildPattern repSyms "headache" ∈
      (detectRecurringSymptoms repSyms).recurring_symptoms ∧
    (PATTERN_REPEAT_THRESHOLD ≤
        (allKeywords repSyms).count (buildPattern repSyms "headache").symptom_keyword ∧
      (buildPattern repSyms "headache").occurrence_count =
        (allKeywords repSyms).count (buildPattern repSyms "headache").symptom_keyword ∧
      (buildPattern repSyms "headache").dates =
        ((keywordOccurrences repSyms).filter
          (fun o => o.keywords.contains (buildPattern repSyms "headache").symptom_keyword)).map
          Occurrence.timestamp ∧
      (buildPattern repSyms "headache").reports =
        ((keywordOccurrences repSyms).filter
          (fun o => o.keywords.contains (buildPattern repSyms "headache").symptom_keyword)).map
          Occurrence.full_text) :=
  ⟨by decide,
   detect_recurring_threshold_and_provenance repSyms (buildPattern repSyms "headache")
     (by decide)⟩

/-- Symptom history whose keyword "headache" occurs twice inside a single
report and in no other report. -/
def oneReportSyms : List PEvent :=
  [⟨"headache headache", "2024-01-01", []⟩, ⟨"fever persists", "2024-01-03", []⟩]

/-- C8 counterexample: "headache" occurs twice in the text of one single
report (and in no other report), and detect_recurring_symptoms still reports
it as a recurring pattern, so two occurrences inside a single report do by
themselves make a keyword recurring. -/
theorem recurring_from_single_report_cx :
    (detectRecurringSymptoms oneReportSyms).recurring_symptoms =
      [{ symptom_keyword := "headache", occurrence_count := 2,
         dates := ["2024-01-01"], reports := ["headache headache"] }] ∧
    PATTERN_REPEAT_THRESHOLD = 2 ∧
    ((keywordOccurrences oneReportSyms).filter
      (fun o => o.keywords.contains "headache")).length = 1 := by
  decide

theorem mem_dedupKeys {x : String} : ∀ {l : List String},
    x ∈ dedupKeys l ↔ x ∈ l := by
  intro l
  induction l with
  | nil => simp [dedupKeys]
  | cons k ks ih =>
    constructor
    · intro hmem
      rcases List.mem_cons.mp hmem with rfl | h
      · exact List.mem_cons_self _ _
      · exact List.mem_cons_of_mem _ (ih.mp (List.mem_filter.mp h).1)
    · intro hmem
      rcases List.mem_cons.mp hmem with rfl | h
      · exact List.mem_cons_self _ _
      · by_cases hx : x = k
        · subst hx
          exact List.mem_cons_self _ _
        · exact List.mem_cons_of_mem _
            (List.mem_filter.mpr ⟨ih.mpr h, by simp [hx]⟩)

/-- C8 amended: a keyword is reported as recurring precisely when there are
at least two symptom reports and its total occurrence count across all
reports reaches the threshold; occurrences inside a single report count
individually, so one report can make a keyword recurring on its own. -/
theorem detect_recurring_iff_total_count (symptoms : List PEvent) (k : String) :
    (∃ p ∈ (detectRecurringSymptoms symptoms).recurring_symptoms,
      p.symptom_keyword = k) ↔
    (2 ≤ symptoms.length ∧
      PATTERN_REPEAT_THRESHOLD ≤ (allKeywords symptoms).count k) := by
  constructor
  · rintro ⟨p, hp, hk⟩
    unfold detectRecurringSymptoms at hp
    by_cases h2 : symptoms.length < 2
    · rw [if_pos h2] at hp
      simp at hp
    · by_cases h3 : recurringKeywords symptoms = []
      · rw [if_neg h2, if_pos h3] at hp
        simp at hp
      · rw [if_neg h2, if_neg h3] at hp
        simp only [List.mem_map] at hp
        obtain ⟨k', hk', hpk⟩ := hp
        have hkk : k' = k := by
          rw [← hk, ← hpk]
          rfl
        subst hkk
        unfold recurringKeywords at hk'
        rw [List.mem_filter] at hk'
        exact ⟨by omega, of_decide_eq_true hk'.2⟩
  · rintro ⟨h2, hcount⟩
    have hmem : k ∈ recurringKeywords symptoms := by
      unfold recurringKeywords
      refine List.mem_filter.mpr ⟨mem_dedupKeys.mpr ?_, decide_eq_true hcount⟩
      refine List.count_pos_iff.mp ?_
      have hpos : 0 < PATTERN_REPEAT_THRESHOLD := by decide
      omega
    unfold detectRecurringSymptoms
    rw [if_neg (by omega),
      if_neg (by intro h; rw [h] at hmem; exact absurd hmem (List.not_mem_nil k))]
    exact ⟨buildPattern symptoms k, List.mem_map_of_mem _ hmem, rfl⟩

/-- Word characters of the regex backslash-w over ASCII text. -/
def isWordChar (c : Char) : Bool := c.isAlphanum || c == '_'

/-- Model of the re.sub call in helpers.extract_keywords_from_text: after
lower-casing, every character that is neither a word character nor
whitespace becomes a space. -/
def sanitizeText (s : String) : String :=
  String.mk ((pyToLower s).data.map
    (fun c => if isWordChar c || c.isWhitespace then c else ' '))

/-- Stop-word set of helpers.extract_keywords_from_text (duplicate entries
as in the source literal). -/
def stopWordsHelpers : List String :=
  ["the", "a", "an", "and", "or", "but", "in", "on", "at", "to", "for",
   "of", "with", "by", "from", "as", "is", "was", "are", "were", "been",
   "be", "have", "has", "had", "do", "does", "did", "will", "would",
   "should", "could", "may", "might", "must", "can", "this", "that",
   "these", "those", "i", "you", "he", "she", "it", "we", "they",
   "my", "your", "his", "her", "its", "our", "their", "me", "him",
   "them", "us", "am", "been", "being", "have", "has"]

/-- helpers.extract_keywords_from_text: sanitize, split on whitespace, keep
words of length at least min_length that are not stop words. -/
def extractKeywordsFromText (text : String) (min_length : Nat) : List String :=
  (pySplit (sanitizeText text)).filter
    (fun w => decide (min_length ≤ w.length) && !(stopWordsHelpers.contains w))

theorem wordsAux_chars (cs : List Char) :
    ∀ acc : List Char, (∀ c ∈ acc, c.isWhitespace = false) →
      ∀ w ∈ wordsAux cs acc, ∀ c ∈ w,
        (c ∈ cs ∨ c ∈ acc) ∧ c.isWhitespace = false := by
  induction cs with
  | nil =>
    intro acc hacc w hw c hc
    simp only [wordsAux] at hw
    by_cases ha : acc = []
    · rw [if_pos ha] at hw
      simp at hw
    · rw [if_neg ha] at hw
      rw [List.mem_singleton] at hw
      subst hw
      rw [List.mem_reverse] at hc
      exact ⟨Or.inr hc, hacc c hc⟩
  | cons c0 cs ih =>
    intro acc hacc w hw c hc
    simp only [wordsAux] at hw
    by_cases hws : c0.isWhitespace = true
    · rw [if_pos hws] at hw
      by_cases ha : acc = []
      · rw [if_pos ha] at hw
        have h := ih [] (by simp) w hw c hc
        rcases h.1 with h1 | h1
        · exact ⟨Or.inl (List.mem_cons_of_mem _ h1), h.2⟩
        · simp at h1
      · rw [if_neg ha] at hw
        rcases List.mem_cons.mp hw with rfl | hw'
        · rw [List.mem_reverse] at hc
          exact ⟨Or.inr hc, hacc c hc⟩
        · have h := ih [] (by simp) w hw' c hc
          rcases h.1 with h1 | h1
          · exact ⟨Or.inl (List.mem_cons_of_mem _ h1), h.2⟩
          · simp at h1
    · rw [if_neg hws] at hw
      have hacc' : ∀ x ∈ c0 :: acc, x.isWhitespace = false := by
        intro x hx
        rcases List.mem_cons.mp hx with rfl | hx'
        · cases hb : x.isWhitespace
          · rfl
          · exact absurd hb hws
        · exact hacc x hx'
      have h := ih (c0 :: acc) hacc' w hw c hc
      rcases h.1 with h1 | h1
      · exact ⟨Or.inl (List.mem_cons_of_mem _ h1), h.2⟩
      · rcases List.mem_cons.mp h1 with rfl | h1'
        · exact ⟨Or.inl (List.mem_cons_self _ _), h.2⟩
        · exact ⟨Or.inr h1', h.2⟩

theorem pySplit_chars (s : String) (w : String) (hw : w ∈ pySplit s) :
    ∀ c ∈ w.data, c ∈ s.data ∧ c.isWhitespace = false := by
  unfold pySplit at hw
  simp only [List.mem_map] at hw
  obtain ⟨cs, hcs, rfl⟩ := hw
  intro c hc
  have h := wordsAux_chars s.data [] (by simp) cs hcs c (by simpa using hc)
  rcases h.1 with h1 | h1
  · exact ⟨h1, h.2⟩
  · simp at h1

theorem sanitizeText_chars (s : String) (c : Char)
    (hc : c ∈ (sanitizeText s).data) :
    isWordChar c = true ∨ c.isWhitespace = true := by
  unfold sanitizeText at hc
  obtain ⟨c0, _, rfl⟩ := List.mem_map.mp (by simpa using hc)
  by_cases h1 : isWordChar c0 = true
  · rw [if_pos (Or.inl h1)]
    exact Or.inl h1
  · by_cases h2 : c0.isWhitespace = true
    · rw [if_pos (Or.inr h2)]
      exact Or.inr h2
    · rw [if_neg (fun h => h.elim h1 h2)]
      right
      decide

/-- C9 amended: helpers.extract_keywords_from_text satisfies the claimed
contract at the default min_length 4: every output token consists solely of
word characters, has length at least 4 and is not a stop word; empty input
yields the empty list; and the output is the token sequence of the
sanitized text filtered in place, hence input order is preserved with no
deduplication.  (The counterexample shows the pattern agent's own
_extract_keywords does not satisfy this.) -/
theorem extract_keywords_from_text_contract :
    (∀ text w : String, w ∈ extractKeywordsFromText text 4 →
      (∀ c ∈ w.data, isWordChar c = true) ∧ 4 ≤ w.length ∧
        w ∉ stopWordsHelpers) ∧
    extractKeywordsFromText "" 4 = [] ∧
    (∀ text : String,
      (extractKeywordsFromText text 4).Sublist (pySplit (sanitizeText text))) := by
  refine ⟨?_, rfl, ?_⟩
  · intro text w hw
    unfold extractKeywordsFromText at hw
    rw [List.mem_filter] at hw
    obtain ⟨hmem, hcond⟩ := hw
    rw [Bool.and_eq_true] at hcond
    refine ⟨?_, of_decide_eq_true hcond.1, ?_⟩
    · intro c hc
      have h2 := pySplit_chars _ _ hmem c hc
      rcases sanitizeText_chars text c h2.1 with h3 | h3
      · exact h3
      · rw [h2.2] at h3
        exact absurd h3 (by simp)
    · intro hstop
      have htrue : stopWordsHelpers.contains w = true := List.elem_iff.mpr hstop
      have hns := hcond.2
      rw [htrue] at hns
      simp at hns
  · intro text
    exact List.filter_sublist _

theorem extract_keywords_from_text_contract_witness :
    "headache" ∈ extractKeywordsFromText "severe headache!!" 4 ∧
    ((∀ c ∈ ("headache" : String).data, isWordChar c = true) ∧
      4 ≤ ("headache" : String).length ∧ "headache" ∉ stopWordsHelpers) :=
  ⟨by decide,
   extract_keywords_from_text_contract.1 "severe headache!!" "headache" (by decide)⟩

/-- C9 counterexample: the pattern agent's own keyword extractor checks
length and stop-word membership before stripping punctuation and strips only
".,!?;:", so its output here contains a token of length 2, the stop word
"the", and a token with an embedded non-word character. -/
theorem pattern_extract_keywords_cx :
    extractKeywords "no!! the. head-ache" = ["no", "the", "head-ache"] ∧
    ("no" : String).length < 4 ∧
    "the" ∈ stopWords ∧
    isWordChar '-' = false ∧ '-' ∈ ("head-ache" : String).data := by
  decide

/-- Leap-year test of the proleptic Gregorian calendar. -/
def isLeapYear (y : Int) : Bool :=
  (y.emod 4 == 0 && y.emod 100 != 0) || y.emod 400 == 0

/-- Number of days in a month of the proleptic Gregorian calendar. -/
def daysInMonth (y m : Int) : Int :=
  if m = 2 then (if isLeapYear y then 29 else 28)
  else if m = 4 ∨ m = 6 ∨ m = 9 ∨ m = 11 then 30
  else 31

/-- Days since 1970-01-01 of a Gregorian civil date (the civil-from-date
conversion underlying Python datetime arithmetic). -/
def daysFromCivil (y m d : Int) : Int :=
  let y1 := if m ≤ 2 then y - 1 else y
  let era := y1.fdiv 400
  let yoe := y1 - era * 400
  let mp := (m + 9).emod 12
  let doy := (153 * mp + 2).fdiv 5 + d - 1
  let doe := yoe * 365 + yoe.fdiv 4 - yoe.fdiv 100 + doy
  era * 146097 + doe - 719468

/-- Value of a decimal digit character. -/
def digitVal (c : Char) : Option Nat :=
  if c.isDigit then some (c.toNat - Char.toNat '0') else none

/-- Two-digit decimal field. -/
def parse2 (c1 c2 : Char) : Option Nat :=
  match digitVal c1, digitVal c2 with
  | some d1, some d2 => some (10 * d1 + d2)
  | _, _ => none

/-- Four-digit decimal field. -/
def parse4 (c1 c2 c3 c4 : Char) : Option Nat :=
  match parse2 c1 c2, parse2 c3 c4 with
  | some hi, some lo => some (100 * hi + lo)
  | _, _ => none

/-- Time of day in seconds, from "HH:MM" or "HH:MM:SS". -/
def parseTimeOfDay : List Char → Option Nat
  | [h1, h2, ':', m1, m2] =>
    match parse2 h1 h2, parse2 m1 m2 with
    | some h, some m => if h < 24 ∧ m < 60 then some (3600 * h + 60 * m) else none
    | _, _ => none
  | [h1, h2, ':', m1, m2, ':', s1, s2] =>
    match parse2 h1 h2, parse2 m1 m2, parse2 s1 s2 with
    | some h, some m, some s =>
      if h < 24 ∧ m < 60 ∧ s < 60 then some (3600 * h + 60 * m + s) else none
    | _, _, _ => none
  | _ => none

/-- Model of datetime.fromisoformat restricted to the timestamp shapes this
repository stores: "YYYY-MM-DD", optionally followed by "T" or a space and
"HH:MM" or "HH:MM:SS".  The result is the number of seconds since
1970-01-01T00:00:00 of the parsed naive instant; none models the ValueError
raised on any other string. -/
def parseTimestamp (s : String) : Option Int :=
  match s.data with
  | y1 :: y2 :: y3 :: y4 :: '-' :: m1 :: m2 :: '-' :: d1 :: d2 :: rest =>
    match parse4 y1 y2 y3 y4, parse2 m1 m2, parse2 d1 d2 with
    | some y, some m, some d =>
      if 1 ≤ m ∧ m ≤ 12 ∧ 1 ≤ d ∧ (d : Int) ≤ daysInMonth (y : Int) (m : Int) then
        match rest with
        | [] => some (86400 * daysFromCivil (y : Int) (m : Int) (d : Int))
        | sep :: timeRest =>
          if sep = 'T' ∨ sep = ' ' then
            match parseTimeOfDay timeRest with
            | some secs => some (86400 * daysFromCivil (y : Int) (m : Int) (d : Int) + (secs : Int))
            | none => none
          else none
      else none
    | _, _, _ => none
  | _ => none

/-- The days_apart computation abs((symptom_time - rx_time).days) of
correlate_with_medications: Python timedelta.days floors the signed
difference, then abs is applied. -/
def timeDiffDays (t1 t2 : Int) : Nat := ((t1 - t2).fdiv 86400).natAbs

/-- Correlation record emitted by correlate_with_medications. -/
structure Correlation where
  symptom_text : String
  symptom_date : String
  prescription_drugs : List String
  prescription_date : String
  days_apart : Nat
deriving DecidableEq

/-- Inner loop of correlate_with_medications for one symptom whose parsed
time is st: scan the prescriptions in order, emit a record when the day
difference is at most 7, and stop with the parse error on the first
prescription timestamp that fails to parse. -/
def corrsForSymptom (s : PEvent) (st : Int) :
    List PEvent → Except String (List Correlation)
  | [] => Except.ok []
  | rx :: rest =>
    match parseTimestamp rx.timestamp with
    | none => Except.error ("Invalid isoformat string: " ++ rx.timestamp)
    | some rt =>
      match corrsForSymptom s st rest with
      | Except.error e => Except.error e
      | Except.ok tail =>
        if timeDiffDays st rt ≤ 7 then
          Except.ok ({ symptom_text := s.text, symptom_date := s.timestamp,
                       prescription_drugs := rx.drugs,
                       prescription_date := rx.timestamp,
                       days_apart := timeDiffDays st rt } :: tail)
        else Except.ok tail

/-- Temporal-proximity loop of PatternAgent.correlate_with_medications over
the matching symptoms and the prescriptions: the cross product is scanned in
order and a record is emitted for every pair at most 7 days apart; an
unparsable timestamp stops the computation with the parse error, modelling
the uncaught ValueError. -/
def buildCorrelations : List PEvent → List PEvent → Except String (List Correlation)
  | [], _ => Except.ok []
  | s :: rest, rxs =>
    match parseTimestamp s.timestamp with
    | none => Except.error ("Invalid isoformat string: " ++ s.timestamp)
    | some st =>
      match corrsForSymptom s st rxs with
      | Except.error e => Except.error e
      | Except.ok here =>
        match buildCorrelations rest rxs with
        | Except.error e => Except.error e
        | Except.ok tail => Except.ok (here ++ tail)

/-- Lexicographic order on character lists by code point. -/
def charsLt : List Char → List Char → Bool
  | [], [] => false
  | [], _ :: _ => true
  | _ :: _, [] => false
  | a :: as, b :: bs =>
    if a.toNat < b.toNat then true
    else if b.toNat < a.toNat then false
    else charsLt as bs

/-- Model of the Python string comparison used by the sort key. -/
def pyStrLt (a b : String) : Bool := charsLt a.data b.data

/-- Insertion step of a stable descending sort by the raw timestamp string. -/
def insertDesc (x : PEvent) : List PEvent → List PEvent
  | [] => [x]
  | y :: ys =>
    if pyStrLt y.timestamp x.timestamp then x :: y :: ys else y :: insertDesc x ys

/-- Model of events.sort(key=timestamp string, reverse=True) in
MemoryAgent.get_patient_history: stable descending sort on the raw
timestamp string; timestamps are not parsed and no event is dropped. -/
def sortByTimestampDesc (l : List PEvent) : List PEvent :=
  l.foldl (fun acc x => insertDesc x acc) []

/-- C5: for a symptom and a prescription whose timestamps parse to exact
calendar days a and b (in days since the epoch), the correlator emits
exactly one record precisely when the absolute day difference is at most 7
— 7 days apart included, 8 excluded — and the record's days_apart equals
that absolute difference. -/
theorem correlation_window_exact_days (s rx : PEvent) (a b : Int)
    (hs : parseTimestamp s.timestamp = some (86400 * a))
    (hr : parseTimestamp rx.timestamp = some (86400 * b)) :
    buildCorrelations [s] [rx] =
      Except.ok (if (a - b).natAbs ≤ 7 then
        [{ symptom_text := s.text, symptom_date := s.timestamp,
           prescription_drugs := rx.drugs, prescription_date := rx.timestamp,
           days_apart := (a - b).natAbs }] else []) := by
  have hdiff : timeDiffDays (86400 * a) (86400 * b) = (a - b).natAbs := by
    unfold timeDiffDays
    rw [← mul_sub, Int.mul_fdiv_cancel_left _ (by norm_num : (86400 : Int) ≠ 0)]
  simp only [buildCorrelations, corrsForSymptom, hs, hr, hdiff]
  by_cases h : (a - b).natAbs ≤ 7
  · rw [if_pos h, if_pos h]
    simp
  · rw [if_neg h, if_neg h]
    rfl

/-- Symptom event dated exactly 7 calendar days after the prescription. -/
def symW : PEvent := ⟨"dizzy spells", "1970-01-08", []⟩

/-- Prescription event at the epoch date. -/
def rxW : PEvent := ⟨"prescribed", "1970-01-01", ["Lisinopril"]⟩

theorem correlation_window_exact_days_witness :
    parseTimestamp symW.timestamp = some (86400 * 7) ∧
    parseTimestamp rxW.timestamp = some (86400 * 0) ∧
    buildCorrelations [symW] [rxW] =
      Except.ok (if ((7 : Int) - 0).natAbs ≤ 7 then
        [{ symptom_text := symW.text, symptom_date := symW.timestamp,
           prescription_drugs := rxW.drugs, prescription_date := rxW.timestamp,
           days_apart := ((7 : Int) - 0).natAbs }] else []) :=
  ⟨by decide, by decide,
   correlation_window_exact_days symW rxW 7 0 (by decide) (by decide)⟩

/-- C6 counterexample: with a half-day fractional offset the computed
days_apart is 0 one way and 1 the other, both through timeDiffDays and
through the correlator itself, so the day difference is not symmetric and is
the floor of the signed difference rather than a difference of truncated
calendar days. -/
theorem day_difference_not_symmetric_cx :
    timeDiffDays 43200 0 = 0 ∧ timeDiffDays 0 43200 = 1 ∧
    parseTimestamp "1970-01-01T12:00:00" = some 43200 ∧
    parseTimestamp "1970-01-01T00:00:00" = some 0 ∧
    buildCorrelations [⟨"dizzy", "1970-01-01T12:00:00", []⟩]
        [⟨"rx", "1970-01-01T00:00:00", ["Bisoprolol"]⟩] =
      Except.ok [⟨"dizzy", "1970-01-01T12:00:00", ["Bisoprolol"],
        "1970-01-01T00:00:00", 0⟩] ∧
    buildCorrelations [⟨"dizzy", "1970-01-01T00:00:00", []⟩]
        [⟨"rx", "1970-01-01T12:00:00", ["Bisoprolol"]⟩] =
      Except.ok [⟨"dizzy", "1970-01-01T00:00:00", ["Bisoprolol"],
        "1970-01-01T12:00:00", 1⟩] :=
  ⟨rfl, rfl, rfl, rfl, rfl, rfl⟩

/-- C6 amended: days_apart is the absolute value of the floor of the signed
difference in days, so swapping the two timestamps preserves it whenever
they differ by a whole number of days (in particular for exact calendar
days), though not for arbitrary fractional times-of-day. -/
theorem time_diff_days_symm_on_whole_days (t1 t2 : Int)
    (h : (86400 : Int) ∣ (t1 - t2)) :
    timeDiffDays t1 t2 = timeDiffDays t2 t1 := by
  obtain ⟨k, hk⟩ := h
  have h2 : t2 - t1 = 86400 * (-k) := by omega
  unfold timeDiffDays
  rw [hk, h2, Int.mul_fdiv_cancel_left _ (by norm_num : (86400 : Int) ≠ 0),
    Int.mul_fdiv_cancel_left _ (by norm_num : (86400 : Int) ≠ 0), Int.natAbs_neg]

theorem time_diff_days_symm_on_whole_days_witness :
    timeDiffDays 259200 0 = timeDiffDays 0 259200 :=
  time_diff_days_symm_on_whole_days 259200 0 ⟨3, by norm_num⟩

/-- Symptom event with an unparsable timestamp. -/
def badSym : PEvent := ⟨"dizzy", "not-a-date", []⟩

/-- Prescription event with a well-formed timestamp. -/
def goodRx : PEvent := ⟨"rx", "1970-01-01", ["Metformin"]⟩

/-- C10 counterexample: an event with an unparsable timestamp is not
silently excluded: the correlator's day-window loop stops with the parse
error instead of running to completion, and timestamp ordering keeps the
event, sorting it by its raw string. -/
theorem malformed_timestamp_cx :
    parseTimestamp "not-a-date" = none ∧
    buildCorrelations [badSym] [goodRx] =
      Except.error ("Invalid isoformat string: " ++ "not-a-date") ∧
    sortByTimestampDesc [goodRx, badSym] = [badSym, goodRx] :=
  ⟨rfl, rfl, rfl⟩

theorem insertDesc_perm (x : PEvent) :
    ∀ l : List PEvent, List.Perm (insertDesc x l) (x :: l) := by
  intro l
  induction l with
  | nil => exact List.Perm.refl _
  | cons y ys ih =>
    unfold insertDesc
    by_cases h : pyStrLt y.timestamp x.timestamp = true
    · rw [if_pos h]
    · rw [if_neg h]
      exact (List.Perm.cons y ih).trans (List.Perm.swap x y ys)

/-- C10 amended: an unparsable timestamp is not silently dropped from
time-based operations: the correlator's day-window computation stops with
the parse error on the first unparsable symptom timestamp (modelling the
uncaught ValueError), while timestamp ordering never parses and keeps every
event — its output is a permutation of its input. -/
theorem malformed_timestamp_behavior :
    (∀ (s : PEvent) (rest rxs : List PEvent),
      parseTimestamp s.timestamp = none →
      buildCorrelations (s :: rest) rxs =
        Except.error ("Invalid isoformat string: " ++ s.timestamp)) ∧
    (∀ l : List PEvent, List.Perm (sortByTimestampDesc l) l) := by
  constructor
  · intro s rest rxs hparse
    simp only [buildCorrelations, hparse]
  · intro l
    have key : ∀ (t acc : List PEvent),
        List.Perm (t.foldl (fun a x => insertDesc x a) acc) (t ++ acc) := by
      intro t
      induction t with
      | nil => intro acc; exact List.Perm.refl _
      | cons x t ih =>
        intro acc
        simp only [List.foldl_cons, List.cons_append]
        refine (ih (insertDesc x acc)).trans ?_
        refine (List.Perm.append_left t (insertDesc_perm x acc)).trans ?_
        exact List.perm_middle
    simpa using key l []

theorem malformed_timestamp_behavior_witness :
    buildCorrelations [badSym] [] =
      Except.error ("Invalid isoformat string: " ++ badSym.timestamp) ∧
    List.Perm (sortByTimestampDesc [badSym, goodRx]) [badSym, goodRx] :=
  ⟨malformed_timestamp_behavior.1 badSym [] [] (by decide),
   malformed_timestamp_behavior.2 [badSym, goodRx]⟩

end CareTrace

